import Mathlib

/-!
Verification model of the rates-app repository (Refi Radar).

The TypeScript sources under `src/lib/services` (rates.ts, refinance-calc.ts,
email.ts), the server actions (onboarding) and the cron route are embedded
shallowly:

* JavaScript numbers that hold rates / dollar amounts are modelled as exact
  rationals (`ℚ`); decimal database columns stored as strings and read back
  through `parseFloat` are likewise modelled as `ℚ` (respectively `Option ℚ`
  for nullable columns).
* Database tables are lists of rows in a `DB` record; drizzle queries become
  list operations (`find?`, `filter`, `map`, append).
* Effectful results of the outside world (the FRED fetch and the email
  provider) are supplied as explicit inputs in an `Env` record, and the
  functions additionally report which external effects they performed.
-/

namespace RatesApp

/-! ## Pure calculation layer (rates.ts lines 484–719, the full evaluator) -/

/-- Metrics record produced by `calculateRefinanceMetrics` (interface
`RefinanceMetrics` in rates.ts). -/
structure RefinanceMetrics where
  currentRate : ℚ
  estimatedNewRate : ℚ
  currentMonthlyPayment : ℚ
  estimatedNewMonthlyPayment : ℚ
  monthlySavings : ℚ
  closingCosts : ℚ
  breakEvenMonths : Option ℤ
  totalSavingsOverTerm : ℚ
deriving DecidableEq, Repr

/-- Result record of the full evaluator (interface `EvaluationResult` in
rates.ts). -/
structure EvaluationResult where
  triggered : Bool
  metrics : RefinanceMetrics
  triggeredReason : Option String
  benchmarkRateTriggered : Bool
  breakEvenTriggered : Bool
deriving DecidableEq, Repr

/-- `calculateMonthlyPayment` from rates.ts: standard amortization formula
`P·r·(1+r)^n / ((1+r)^n − 1)` with `r = annualRate/100/12`; `termMonths ≤ 0`
returns `0`; `annualRate ≤ 0` returns `principal / termMonths`. -/
def calculateMonthlyPayment (principal annualRate : ℚ) (termMonths : ℤ) : ℚ :=
  if termMonths ≤ 0 then 0
  else if annualRate ≤ 0 then principal / (termMonths : ℚ)
  else
    let monthlyRate := annualRate / 100 / 12
    let factor := (1 + monthlyRate) ^ termMonths.toNat
    principal * monthlyRate * factor / (factor - 1)

/-- The percent / default fallback of `calculateClosingCosts` (the code after
the `closingCostDollars` early return in rates.ts). -/
def closingCostsFromPercent (loanBalance : ℚ) : Option ℚ → ℚ
  | some p => if 0 < p then loanBalance * (p / 100) else loanBalance * (2 / 100)
  | none => loanBalance * (2 / 100)

/-- `calculateClosingCosts` from rates.ts: the fixed dollar amount when it is
non-null AND strictly positive, else the percent of the balance when that is
non-null AND strictly positive, else 2% of the balance. -/
def calculateClosingCosts (loanBalance : ℚ)
    (closingCostDollars closingCostPercent : Option ℚ) : ℚ :=
  match closingCostDollars with
  | some d =>
      if 0 < d then d else closingCostsFromPercent loanBalance closingCostPercent
  | none => closingCostsFromPercent loanBalance closingCostPercent

/-- `calculateBreakEvenMonths` from rates.ts: `none` when
`monthlySavings ≤ 0`, else `⌈closingCosts / monthlySavings⌉`. -/
def calculateBreakEvenMonths (closingCosts monthlySavings : ℚ) : Option ℤ :=
  if monthlySavings ≤ 0 then none
  else some ⌈closingCosts / monthlySavings⌉

/-- Input of `calculateRefinanceMetrics` (the inline profile parameter type in
rates.ts). -/
structure MetricsProfile where
  loanBalance : ℚ
  currentRate : ℚ
  remainingTermMonths : ℤ
  closingCostDollars : Option ℚ
  closingCostPercent : Option ℚ
deriving DecidableEq, Repr

/-- `calculateRefinanceMetrics` from rates.ts. -/
def calculateRefinanceMetrics (profile : MetricsProfile)
    (benchmarkRate : ℚ) : RefinanceMetrics :=
  let estimatedNewRate := benchmarkRate
  let currentMonthlyPayment :=
    calculateMonthlyPayment profile.loanBalance profile.currentRate
      profile.remainingTermMonths
  let estimatedNewMonthlyPayment :=
    calculateMonthlyPayment profile.loanBalance estimatedNewRate
      profile.remainingTermMonths
  let monthlySavings := currentMonthlyPayment - estimatedNewMonthlyPayment
  let closingCosts :=
    calculateClosingCosts profile.loanBalance profile.closingCostDollars
      profile.closingCostPercent
  let breakEvenMonths := calculateBreakEvenMonths closingCosts monthlySavings
  let totalSavingsOverTerm :=
    if 0 < monthlySavings then
      monthlySavings * (profile.remainingTermMonths : ℚ) - closingCosts
    else 0
  { currentRate := profile.currentRate
    estimatedNewRate := estimatedNewRate
    currentMonthlyPayment := currentMonthlyPayment
    estimatedNewMonthlyPayment := estimatedNewMonthlyPayment
    monthlySavings := monthlySavings
    closingCosts := closingCosts
    breakEvenMonths := breakEvenMonths
    totalSavingsOverTerm := totalSavingsOverTerm }

/-- Model of JavaScript `Number.prototype.toFixed(3)`: decimal rendering with
exactly three fractional digits, rounding to the nearest thousandth (ties
away from zero resolve upward on the scaled value). -/
def toFixed3 (q : ℚ) : String :=
  let n : ℤ := ⌊q * 1000 + 1 / 2⌋
  let sign := if n < 0 then "-" else ""
  let m := n.natAbs
  let fp := m % 1000
  let pad := if fp < 10 then "00" else if fp < 100 then "0" else ""
  sign ++ toString (m / 1000) ++ "." ++ pad ++ toString fp

/-- The benchmark-rate clause pushed onto `reasons` in
`evaluateRefinanceTriggers` (rates.ts). -/
def rateClause (benchmarkRate threshold : ℚ) : String :=
  "The 30-year benchmark rate (" ++ toFixed3 benchmarkRate ++
    "%) dropped to or below your threshold of " ++ toFixed3 threshold ++ "%"

/-- The break-even clause pushed onto `reasons` in
`evaluateRefinanceTriggers` (rates.ts). -/
def breakEvenClause (breakEvenMonths threshold : ℤ) : String :=
  "Your estimated break-even period (" ++ toString breakEvenMonths ++
    " months) is at or below your threshold of " ++ toString threshold ++
    " months"

/-- Input of the full `evaluateRefinanceTriggers` (the inline profile
parameter type in rates.ts), as produced by `profileToCalcInput`. -/
structure CalcProfile where
  loanBalance : ℚ
  currentRate : ℚ
  remainingTermMonths : ℤ
  closingCostDollars : Option ℚ
  closingCostPercent : Option ℚ
  benchmarkRateThreshold : Option ℚ
  breakEvenMonthsThreshold : Option ℤ
  expectedTimeInHomeYears : ℤ
deriving DecidableEq, Repr

/-- The full `evaluateRefinanceTriggers` from rates.ts (lines 635–697). -/
def evaluateRefinanceTriggers (profile : CalcProfile)
    (benchmarkRate : ℚ) : EvaluationResult :=
  let metrics := calculateRefinanceMetrics
    { loanBalance := profile.loanBalance
      currentRate := profile.currentRate
      remainingTermMonths := profile.remainingTermMonths
      closingCostDollars := profile.closingCostDollars
      closingCostPercent := profile.closingCostPercent }
    benchmarkRate
  let benchmarkRateTriggered : Bool :=
    match profile.benchmarkRateThreshold with
    | some t => decide (benchmarkRate ≤ t)
    | none => false
  let breakEvenTriggered : Bool :=
    match profile.breakEvenMonthsThreshold, metrics.breakEvenMonths with
    | some t, some b => decide (b ≤ t)
    | _, _ => false
  let reasons : List String :=
    (if benchmarkRateTriggered then
      [rateClause benchmarkRate (profile.benchmarkRateThreshold.getD 0)]
     else []) ++
    (if breakEvenTriggered then
      [breakEvenClause (metrics.breakEvenMonths.getD 0)
        (profile.breakEvenMonthsThreshold.getD 0)]
     else [])
  let triggered := benchmarkRateTriggered || breakEvenTriggered
  let triggeredReason : Option String :=
    if 0 < reasons.length then
      some (String.intercalate ". Additionally, " reasons ++ ".")
    else none
  { triggered := triggered
    metrics := metrics
    triggeredReason := triggeredReason
    benchmarkRateTriggered := benchmarkRateTriggered
    breakEvenTriggered := breakEvenTriggered }

end RatesApp

namespace RatesApp.SimpleCalc

/-! ## Simplified rate-only evaluator (refinance-calc.ts) -/

/-- Result record of the simplified evaluator (interface `EvaluationResult`
in refinance-calc.ts). -/
structure SimpleEvaluationResult where
  triggered : Bool
  currentRate : ℚ
  benchmarkRate : ℚ
  benchmarkRateThreshold : Option ℚ
  triggeredReason : Option String
deriving DecidableEq, Repr

/-- Input of the simplified evaluator (the inline profile parameter type in
refinance-calc.ts). -/
structure SimpleProfile where
  currentRate : ℚ
  benchmarkRateThreshold : Option ℚ
deriving DecidableEq, Repr

/-- `evaluateRefinanceTriggers` from refinance-calc.ts: just the benchmark
rate threshold check. -/
def evaluateRefinanceTriggers (profile : SimpleProfile)
    (benchmarkRate : ℚ) : SimpleEvaluationResult :=
  let triggered : Bool :=
    match profile.benchmarkRateThreshold with
    | some t => decide (benchmarkRate ≤ t)
    | none => false
  let triggeredReason : Option String :=
    if triggered then
      some ("The 30-year benchmark rate (" ++ RatesApp.toFixed3 benchmarkRate ++
        "%) dropped to or below your threshold of " ++
        RatesApp.toFixed3 (profile.benchmarkRateThreshold.getD 0) ++ "%.")
    else none
  { triggered := triggered
    currentRate := profile.currentRate
    benchmarkRate := benchmarkRate
    benchmarkRateThreshold := profile.benchmarkRateThreshold
    triggeredReason := triggeredReason }

end RatesApp.SimpleCalc

namespace RatesApp

/-! ## Persisted state (drizzle/0000_initial_schema.sql) and operations -/

/-- `monitor_sessions.status` values. -/
inductive SessionStatus
  | active
  | paused
  | completed
  | stopped
  | error
deriving DecidableEq, Repr

/-- `evaluation_runs.outcome` values. -/
inductive Outcome
  | triggered
  | notTriggered
  | error
deriving DecidableEq, Repr

/-- The `trigger_metadata` JSON written by `runEvaluation` on completion. -/
structure TriggerMetadata where
  benchmarkRate : ℚ
  metrics : RefinanceMetrics
  triggeredReason : Option String
deriving DecidableEq, Repr

/-- A `monitor_sessions` row (the columns the services read or write). -/
structure MonitorSession where
  id : String
  userId : String
  status : SessionStatus
  completedAt : Option ℕ
  lastCheckAt : Option ℕ
  lastSuccessAt : Option ℕ
  lastError : Option String
  activeWorkflowId : Option String
  triggerMetadata : Option TriggerMetadata
deriving DecidableEq, Repr

/-- A `rate_snapshots` row. Dates and timestamps are abstract naturals. -/
structure RateSnapshot where
  series : String
  snapshotDate : ℕ
  value : ℚ
  fetchedAt : ℕ
deriving DecidableEq, Repr

/-- An `onboarding_profiles` row (decimal string columns as rationals). -/
structure OnboardingProfile where
  userId : String
  loanBalance : ℚ
  currentRate : ℚ
  remainingTermMonths : ℤ
  expectedTimeInHomeYears : ℤ
  closingCostDollars : Option ℚ
  closingCostPercent : Option ℚ
  benchmarkRateThreshold : Option ℚ
  breakEvenMonthsThreshold : Option ℤ
  emailAlertsEnabled : Bool
deriving DecidableEq, Repr

/-- A `users` row (the columns the services read). -/
structure User where
  id : String
  name : Option String
  email : String
deriving DecidableEq, Repr

/-- The `computed_metrics` JSON of an evaluation run: either the full metrics
record or the `{ error: ... }` object written on a failed rate fetch. -/
inductive ComputedMetrics
  | metricsOf (m : RefinanceMetrics)
  | errorOf (msg : String)
deriving DecidableEq, Repr

/-- An `evaluation_runs` row. -/
structure EvaluationRun where
  sessionId : String
  outcome : Outcome
  computedMetrics : Option ComputedMetrics
  triggeredReason : Option String
  notifiedAt : Option ℕ
deriving DecidableEq, Repr

/-- An `alert_events` row (the `NotificationEvent` of the spec). -/
structure AlertEvent where
  sessionId : String
  dedupeKey : String
  subject : String
  bodyPreview : String
  emailId : String
  sentAt : ℕ
deriving DecidableEq, Repr

/-- The database: one list of rows per table. -/
structure DB where
  users : List User
  profiles : List OnboardingProfile
  sessions : List MonitorSession
  rateSnapshots : List RateSnapshot
  evaluationRuns : List EvaluationRun
  alertEvents : List AlertEvent
deriving DecidableEq, Repr

/-- `RATE_SERIES` from rates.ts. -/
def RATE_SERIES : String := "OBMMIC30YF"

/-- External-world inputs of one evaluation cycle: the FRED fetch outcome
(`fetchLatestRate`, `none` on outage / sentinel / HTTP error), the email
provider outcome (`some` message id on success, `none` on failure), and the
current clock used for `new Date()` / column defaults. -/
structure Env where
  fetchResult : Option (ℕ × ℚ)
  providerResult : Option String
  now : ℕ
deriving DecidableEq, Repr

/-- `getSessionById` from rates.ts: select by id, limit 1. -/
def getSessionById (db : DB) (sessionId : String) : Option MonitorSession :=
  db.sessions.find? fun s => decide (s.id = sessionId)

/-- `storeRateSnapshot` from rates.ts: insert with `onConflictDoNothing`; the
unique index `rate_snapshots_series_date_idx (series, snapshot_date)` makes
the duplicate insert a silent no-op. The function returns `true` on both
paths (its try/catch only returns `false` on a thrown database error, which
the conflict-ignoring insert never produces). -/
def storeRateSnapshot (now : ℕ) (db : DB) (series : String)
    (snapshotDate : ℕ) (value : ℚ) : DB × Bool :=
  if db.rateSnapshots.any
      (fun r => decide (r.series = series ∧ r.snapshotDate = snapshotDate)) then
    (db, true)
  else
    ({ db with rateSnapshots :=
        db.rateSnapshots ++ [⟨series, snapshotDate, value, now⟩] }, true)

/-- `fetchAndStoreLatestRate` from rates.ts: `fetchLatestRate` (supplied by
`env.fetchResult`) then `storeRateSnapshot`. -/
def fetchAndStoreLatestRate (env : Env) (db : DB) :
    DB × Option (ℕ × ℚ × Bool) :=
  match env.fetchResult with
  | none => (db, none)
  | some (date, value) =>
      let stored := storeRateSnapshot env.now db RATE_SERIES date value
      (stored.1, some (date, value, stored.2))

/-- The optional fields of `updateSessionStatus` (`additionalFields` in
rates.ts); an absent field leaves the column untouched. -/
structure SessionPatch where
  completedAt : Option ℕ
  lastError : Option String
  triggerMetadata : Option TriggerMetadata
  activeWorkflowId : Option String
deriving DecidableEq, Repr

/-- A drizzle `set` with possibly-undefined fields: a provided value replaces
the column, an absent one keeps it. -/
def overrideField {α : Type} : Option α → Option α → Option α
  | some v, _ => some v
  | none, old => old

/-- Apply `updateSessionStatus`'s `set` to a single row. -/
def applyPatch (s : MonitorSession) (status : SessionStatus)
    (p : SessionPatch) : MonitorSession :=
  { s with
    status := status
    completedAt := overrideField p.completedAt s.completedAt
    lastError := overrideField p.lastError s.lastError
    triggerMetadata := overrideField p.triggerMetadata s.triggerMetadata
    activeWorkflowId := overrideField p.activeWorkflowId s.activeWorkflowId }

/-- `updateSessionStatus` from rates.ts. -/
def updateSessionStatus (db : DB) (sessionId : String)
    (status : SessionStatus) (p : SessionPatch) : DB :=
  { db with sessions := db.sessions.map fun s =>
      if decide (s.id = sessionId) then applyPatch s status p else s }

/-- The empty patch (no `additionalFields` supplied). -/
def noPatch : SessionPatch := ⟨none, none, none, none⟩

/-- The inline `db.update` in `runEvaluation` that refreshes `lastCheckAt`
and `lastSuccessAt` after a successful fetch. -/
def touchSessionCheckTimes (db : DB) (sessionId : String) (now : ℕ) : DB :=
  { db with sessions := db.sessions.map fun s =>
      if decide (s.id = sessionId) then
        { s with lastCheckAt := some now, lastSuccessAt := some now }
      else s }

/-- `recordEvaluationRun` from rates.ts: append a row. -/
def recordEvaluationRun (db : DB) (run : EvaluationRun) : DB :=
  { db with evaluationRuns := db.evaluationRuns ++ [run] }

/-- `createMonitorSession` from rates.ts: insert a fresh `active` row. The
generated surrogate id is supplied by the caller of the model. -/
def createMonitorSession (db : DB) (userId newId : String) : DB × String :=
  ({ db with sessions := db.sessions ++
      [⟨newId, userId, SessionStatus.active, none, none, none, none, none,
        none⟩] }, newId)

/-- `triggerWorkflowRun` from rates.ts: stamp `activeWorkflowId` on the
session (the outbound workflow HTTP call has no database effect). -/
def triggerWorkflowRun (db : DB) (sessionId : String) : DB :=
  { db with sessions := db.sessions.map fun s =>
      if decide (s.id = sessionId) then
        { s with activeWorkflowId := some ("workflow-" ++ sessionId) }
      else s }

/-- `startOver` from rates.ts: mark every `active` session of the user
`stopped`, then create the replacement session and trigger its workflow. -/
def startOver (db : DB) (userId newId : String) : DB × String :=
  let db1 : DB := { db with sessions := db.sessions.map (fun s =>
      if decide (s.userId = userId ∧ s.status = SessionStatus.active) then
        { s with status := SessionStatus.stopped }
      else s) }
  let created := createMonitorSession db1 userId newId
  (triggerWorkflowRun created.1 created.2, created.2)

/-- `submitOnboarding` (lib/actions/onboarding.ts, both schema variants):
upsert the user's profile, then `createMonitorSession` and
`triggerWorkflowRun` — note no prior session is stopped. -/
def submitOnboarding (db : DB) (userId : String)
    (profileData : OnboardingProfile) (newId : String) : DB × String :=
  let db1 : DB :=
    if db.profiles.any (fun p => decide (p.userId = userId)) then
      { db with profiles := db.profiles.map (fun p =>
          if decide (p.userId = userId) then profileData else p) }
    else
      { db with profiles := db.profiles ++ [profileData] }
  let created := createMonitorSession db1 userId newId
  (triggerWorkflowRun created.1 created.2, created.2)

end RatesApp

namespace RatesApp

/-! ## Notifier (email.ts) -/

/-- The `RefinanceAlertData` payload of email.ts. -/
structure RefinanceAlertData where
  userName : String
  currentRate : ℚ
  benchmarkRate : ℚ
  benchmarkRateThreshold : Option ℚ
  estimatedNewRate : ℚ
  monthlySavings : ℚ
  breakEvenMonths : ℤ
  breakEvenThreshold : Option ℤ
  triggeredReason : String
deriving DecidableEq, Repr

/-- Parameters of `sendRefinanceAlert`. -/
structure AlertParams where
  sessionId : String
  recipient : String
  data : RefinanceAlertData
deriving DecidableEq, Repr

/-- Return value of `sendRefinanceAlert`. -/
structure SendResult where
  sent : Bool
  emailId : Option String
deriving DecidableEq, Repr

/-- The constant subject line of `sendRefinanceAlert` in email.ts. -/
def alertSubject : String :=
  "🎯 Refi Radar Alert: Time to Shop for a Refinance!"

/-- `sendRefinanceAlert` from email.ts. The provider outcome is supplied as
`providerResult` (`some` message id on success, `none` on failure). The
extra `Bool` in the result records whether `provider.send` was invoked.
Control flow of the source: compute the dedupe key `alert-${sessionId}`; if
an `alert_events` row with that key exists, return `{sent: false}` without
calling the provider; otherwise call the provider; on failure return
`{sent: false}` without writing a row; on success append the row and return
`{sent: true, emailId}`. -/
def sendRefinanceAlert (providerResult : Option String) (now : ℕ)
    (db : DB) (params : AlertParams) : DB × SendResult × Bool :=
  let dedupeKey := "alert-" ++ params.sessionId
  if db.alertEvents.any (fun e => decide (e.dedupeKey = dedupeKey)) then
    (db, ⟨false, none⟩, false)
  else
    match providerResult with
    | none => (db, ⟨false, none⟩, true)
    | some emailId =>
        ({ db with alertEvents := db.alertEvents ++
            [⟨params.sessionId, dedupeKey, alertSubject,
              params.data.triggeredReason.take 200, emailId, now⟩] },
          ⟨true, some emailId⟩, true)

/-! ## Session lifecycle manager (rates.ts lines 160–483) -/

/-- `profileToCalcInput` from rates.ts: project the stored profile onto the
evaluator's input (decimal strings are already modelled as rationals). -/
def profileToCalcInput (profile : OnboardingProfile) : CalcProfile :=
  { loanBalance := profile.loanBalance
    currentRate := profile.currentRate
    remainingTermMonths := profile.remainingTermMonths
    closingCostDollars := profile.closingCostDollars
    closingCostPercent := profile.closingCostPercent
    benchmarkRateThreshold := profile.benchmarkRateThreshold
    breakEvenMonthsThreshold := profile.breakEvenMonthsThreshold
    expectedTimeInHomeYears := profile.expectedTimeInHomeYears }

/-- The `metrics` record returned by `runEvaluation`: `{skipped, reason}`
when the status guard fires, `{error}` when the fetch fails, or the computed
metrics. -/
inductive RunMetrics
  | skipped (reason : SessionStatus)
  | errored (msg : String)
  | computed (m : RefinanceMetrics)
deriving DecidableEq, Repr

/-- The `{triggered, metrics}` object returned by `runEvaluation`. -/
structure RunResult where
  triggered : Bool
  metrics : RunMetrics
deriving DecidableEq, Repr

/-- Which external effects one `runEvaluation` performed: whether the FRED
fetch was attempted and whether the email provider was invoked. -/
structure Effects where
  rateFetched : Bool
  providerCalled : Bool
deriving DecidableEq, Repr

/-- Full outcome of one `runEvaluation` call: the database afterwards, the
returned value (`Except.error` models a thrown `Error`), and the external
effects performed. -/
structure RunOutput where
  db : DB
  result : Except String RunResult
  eff : Effects
deriving Repr

/-- `runEvaluation` from rates.ts (lines 354–483), the one-cycle evaluation:
load session (throw if absent); skip unless `active`; load profile and user
(throw if absent); fetch-and-store the rate — on no observation record an
`error` run, move the session to `error` and return `triggered: false`;
otherwise refresh check timestamps, evaluate, record a `not_triggered` run,
or on trigger optionally send the alert, record a `triggered` run with
`notifiedAt` only when the email was sent, and complete the session. -/
def runEvaluation (env : Env) (db : DB) (sessionId : String) : RunOutput :=
  match getSessionById db sessionId with
  | none => ⟨db, Except.error "Session not found", ⟨false, false⟩⟩
  | some session =>
    if session.status = SessionStatus.active then
      match db.profiles.find? (fun p => decide (p.userId = session.userId)) with
      | none => ⟨db, Except.error "Profile not found", ⟨false, false⟩⟩
      | some profile =>
        match db.users.find? (fun u => decide (u.id = session.userId)) with
        | none => ⟨db, Except.error "User not found", ⟨false, false⟩⟩
        | some user =>
          let fetched := fetchAndStoreLatestRate env db
          match fetched.2 with
          | none =>
            let db1 := recordEvaluationRun fetched.1
              ⟨sessionId, Outcome.error,
                some (ComputedMetrics.errorOf "Failed to fetch rate data"),
                none, none⟩
            let db2 := updateSessionStatus db1 sessionId SessionStatus.error
              ⟨none, some "Failed to fetch rate data", none, none⟩
            ⟨db2, Except.ok ⟨false, RunMetrics.errored "Failed to fetch rate data"⟩,
              ⟨true, false⟩⟩
          | some (_date, value, _isNew) =>
            let db2 := touchSessionCheckTimes fetched.1 sessionId env.now
            let evaluation :=
              evaluateRefinanceTriggers (profileToCalcInput profile) value
            if evaluation.triggered then
              if profile.emailAlertsEnabled then
                let alertData : RefinanceAlertData :=
                  { userName := user.name.getD "there"
                    currentRate := evaluation.metrics.currentRate
                    benchmarkRate := value
                    benchmarkRateThreshold := profile.benchmarkRateThreshold
                    estimatedNewRate := evaluation.metrics.estimatedNewRate
                    monthlySavings := evaluation.metrics.monthlySavings
                    breakEvenMonths := evaluation.metrics.breakEvenMonths.getD 0
                    breakEvenThreshold := profile.breakEvenMonthsThreshold
                    triggeredReason := evaluation.triggeredReason.getD "" }
                let sendOut := sendRefinanceAlert env.providerResult env.now db2
                  ⟨sessionId, user.email, alertData⟩
                let db4 := recordEvaluationRun sendOut.1
                  ⟨sessionId, Outcome.triggered,
                    some (ComputedMetrics.metricsOf evaluation.metrics),
                    evaluation.triggeredReason,
                    if sendOut.2.1.sent then some env.now else none⟩
                let db5 := updateSessionStatus db4 sessionId
                  SessionStatus.completed
                  ⟨some env.now, none,
                    some ⟨value, evaluation.metrics, evaluation.triggeredReason⟩,
                    none⟩
                ⟨db5, Except.ok ⟨true, RunMetrics.computed evaluation.metrics⟩,
                  ⟨true, sendOut.2.2⟩⟩
              else
                let db4 := recordEvaluationRun db2
                  ⟨sessionId, Outcome.triggered,
                    some (ComputedMetrics.metricsOf evaluation.metrics),
                    evaluation.triggeredReason, none⟩
                let db5 := updateSessionStatus db4 sessionId
                  SessionStatus.completed
                  ⟨some env.now, none,
                    some ⟨value, evaluation.metrics, evaluation.triggeredReason⟩,
                    none⟩
                ⟨db5, Except.ok ⟨true, RunMetrics.computed evaluation.metrics⟩,
                  ⟨true, false⟩⟩
            else
              let db3 := recordEvaluationRun db2
                ⟨sessionId, Outcome.notTriggered,
                  some (ComputedMetrics.metricsOf evaluation.metrics),
                  none, none⟩
              ⟨db3, Except.ok ⟨false, RunMetrics.computed evaluation.metrics⟩,
                ⟨true, false⟩⟩
    else
      ⟨db, Except.ok ⟨false, RunMetrics.skipped session.status⟩, ⟨false, false⟩⟩

/-- One entry of the cron route's `results` array
(app/api/cron/check-rates/route.ts). -/
structure SessionResult where
  sessionId : String
  success : Bool
  triggered : Option Bool
  errMsg : Option String
deriving DecidableEq, Repr

/-- The per-session loop of the cron route: run each session in order,
catching a thrown error as a failed entry and continuing with the rest. -/
def runEvaluationBatch (env : Env) (db : DB) :
    List String → DB × List SessionResult
  | [] => (db, [])
  | sessionId :: rest =>
    let out := runEvaluation env db sessionId
    let entry : SessionResult :=
      match out.result with
      | Except.ok res => ⟨sessionId, true, some res.triggered, none⟩
      | Except.error e => ⟨sessionId, false, none, some e⟩
    let tail := runEvaluationBatch env out.db rest
    (tail.1, entry :: tail.2)

end RatesApp

namespace RatesApp

/-! ## Concrete instances used by witnesses and counterexamples -/

/-- The fresh `active` row inserted by `createMonitorSession`. -/
def freshSession (newId userId : String) : MonitorSession :=
  ⟨newId, userId, SessionStatus.active, none, none, none, none, none, none⟩

/-- Number of `active` monitor sessions a user has (the spec invariant counts
these). -/
def activeSessionCount (db : DB) (userId : String) : ℕ :=
  db.sessions.countP
    (fun s => decide (s.userId = userId ∧ s.status = SessionStatus.active))

/-- An empty database. -/
def dbEmpty : DB := ⟨[], [], [], [], [], []⟩

/-- A demonstration profile row for user `u`. -/
def demoProfile : OnboardingProfile :=
  ⟨"u", 300000, 13/2, 360, 7, none, none, some (11/2), none, true⟩

/-- An `active` session of user `u`. -/
def activeSession0 : MonitorSession :=
  ⟨"s1", "u", SessionStatus.active, none, none, none, none, none, none⟩

/-- A `paused` session of user `u`. -/
def pausedSession0 : MonitorSession :=
  ⟨"s1", "u", SessionStatus.paused, none, none, none, none, none, none⟩

/-- A user row. -/
def user0 : User := ⟨"u", some "Ann", "ann@example.com"⟩

/-- A profile row of user `u` with a one-month remaining term (keeps the
amortization arithmetic small), a 6% benchmark threshold and email alerts
enabled. -/
def profile0 : OnboardingProfile :=
  ⟨"u", 1000, 5, 1, 7, some 50, none, some 6, none, true⟩

/-- Database holding only the paused session. -/
def dbC4 : DB := ⟨[], [], [pausedSession0], [], [], []⟩

/-- Database holding the user, profile and active session. -/
def dbC6 : DB := ⟨[user0], [profile0], [activeSession0], [], [], []⟩

/-- Environment for a cycle whose rate fetch yields no observation. -/
def envNoFetch : Env := ⟨none, none, 0⟩

/-- Environment for a cycle that observes rate 5 and whose email provider
fails. -/
def envProviderDown : Env := ⟨some (0, 5), none, 0⟩

/-- Calculation profile with benchmark threshold 5.5 and a one-month term. -/
def calcProfile1 : CalcProfile :=
  ⟨1000, 5, 1, some 50, none, some (11/2), none, 7⟩

/-- Calculation profile where rate 5 satisfies both the benchmark threshold
(6) and the break-even threshold (24 months). -/
def calcProfile3 : CalcProfile :=
  ⟨1200, 10, 2, some 1, none, some 6, some 24, 7⟩

/-- A simplified-evaluator profile with threshold 5.5. -/
def simpleProfile1 : SimpleCalc.SimpleProfile := ⟨5, some (11/2)⟩

/-- A notification payload. -/
def alertData0 : RefinanceAlertData :=
  ⟨"Ann", 5, 5, some 6, 5, 10, 5, some 24, "rate reached threshold"⟩

/-- Parameters of a `sendRefinanceAlert` call for session `s1`. -/
def alertParams0 : AlertParams := ⟨"s1", "ann@example.com", alertData0⟩

end RatesApp

namespace RatesApp

/-! ## Helper lemmas -/

/-- Mapping a conditional per-element update over a list commutes with
`find?` when the update preserves the predicate. -/
theorem find?_map_if {α : Type} (q : α → Bool) (f : α → α)
    (hq : ∀ a, q (f a) = q a) (l : List α) :
    (l.map (fun a => if q a then f a else a)).find? q = (l.find? q).map f := by
  induction l with
  | nil => rfl
  | cons a l ih =>
    by_cases h : q a = true
    · simp [List.find?_cons, h, hq]
    · simp only [List.map_cons]
      rw [if_neg h]
      rw [List.find?_cons_of_neg _ h, List.find?_cons_of_neg _ h]
      exact ih

/-- Mapping an element-wise rewrite over a list preserves `countP` when the
rewrite preserves the predicate. -/
theorem countP_map_invariant {α : Type} (p : α → Bool) (f : α → α)
    (hp : ∀ a, p (f a) = p a) (l : List α) :
    (l.map f).countP p = l.countP p := by
  induction l with
  | nil => rfl
  | cons a l ih => simp [List.countP_cons, hp, ih]

/-- `updateSessionStatus` rewrites the session row in place. -/
theorem getSessionById_updateSessionStatus (db : DB) (sid : String)
    (st : SessionStatus) (p : SessionPatch) :
    getSessionById (updateSessionStatus db sid st p) sid =
      (getSessionById db sid).map (fun s => applyPatch s st p) := by
  unfold getSessionById updateSessionStatus
  exact find?_map_if _ _ (fun s => by simp [applyPatch]) db.sessions

/-- The check-timestamp refresh rewrites the session row in place. -/
theorem getSessionById_touchSessionCheckTimes (db : DB) (sid : String)
    (now : ℕ) :
    getSessionById (touchSessionCheckTimes db sid now) sid =
      (getSessionById db sid).map
        (fun s =>
          { s with lastCheckAt := some now, lastSuccessAt := some now }) := by
  unfold getSessionById touchSessionCheckTimes
  exact find?_map_if _ _ (fun s => by simp) db.sessions

/-- Storing a rate snapshot leaves the alert-events table unchanged. -/
theorem storeRateSnapshot_fst_alertEvents (now : ℕ) (db : DB) (series : String)
    (d : ℕ) (v : ℚ) :
    (storeRateSnapshot now db series d v).1.alertEvents = db.alertEvents := by
  unfold storeRateSnapshot
  split <;> rfl

/-- Storing a rate snapshot leaves the sessions table unchanged. -/
theorem storeRateSnapshot_fst_sessions (now : ℕ) (db : DB) (series : String)
    (d : ℕ) (v : ℚ) :
    (storeRateSnapshot now db series d v).1.sessions = db.sessions := by
  unfold storeRateSnapshot
  split <;> rfl

/-- Storing a rate snapshot leaves the evaluation-runs table unchanged. -/
theorem storeRateSnapshot_fst_evaluationRuns (now : ℕ) (db : DB)
    (series : String) (d : ℕ) (v : ℚ) :
    (storeRateSnapshot now db series d v).1.evaluationRuns =
      db.evaluationRuns := by
  unfold storeRateSnapshot
  split <;> rfl

/-- A list with no row for a dedupe key reports `any = false` for it. -/
theorem any_dedupe_false (l : List AlertEvent) (k : String)
    (h : ∀ e ∈ l, e.dedupeKey ≠ k) :
    (l.any fun e => decide (e.dedupeKey = k)) = false := by
  simp only [List.any_eq_false, decide_eq_true_eq]
  exact h

/-- Updating a session status does not touch the evaluation-runs table. -/
theorem updateSessionStatus_evaluationRuns (db : DB) (sid : String)
    (st : SessionStatus) (p : SessionPatch) :
    (updateSessionStatus db sid st p).evaluationRuns = db.evaluationRuns := rfl

/-- Updating a session status does not touch the alert-events table. -/
theorem updateSessionStatus_alertEvents (db : DB) (sid : String)
    (st : SessionStatus) (p : SessionPatch) :
    (updateSessionStatus db sid st p).alertEvents = db.alertEvents := rfl

/-- Recording a run appends exactly that run. -/
theorem recordEvaluationRun_evaluationRuns (db : DB) (run : EvaluationRun) :
    (recordEvaluationRun db run).evaluationRuns =
      db.evaluationRuns ++ [run] := rfl

/-- Recording a run does not touch the alert-events table. -/
theorem recordEvaluationRun_alertEvents (db : DB) (run : EvaluationRun) :
    (recordEvaluationRun db run).alertEvents = db.alertEvents := rfl

/-- The check-timestamp refresh does not touch the evaluation-runs table. -/
theorem touchSessionCheckTimes_evaluationRuns (db : DB) (sid : String)
    (now : ℕ) :
    (touchSessionCheckTimes db sid now).evaluationRuns =
      db.evaluationRuns := rfl

/-- The check-timestamp refresh does not touch the alert-events table. -/
theorem touchSessionCheckTimes_alertEvents (db : DB) (sid : String) (now : ℕ) :
    (touchSessionCheckTimes db sid now).alertEvents = db.alertEvents := rfl

/-- Recording a run does not touch the sessions table. -/
theorem getSessionById_recordEvaluationRun (db : DB) (run : EvaluationRun)
    (sid : String) :
    getSessionById (recordEvaluationRun db run) sid =
      getSessionById db sid := rfl

/-- The cron loop produces one result entry per session id, whatever each
cycle does — the continue-on-error shape of the batch. -/
theorem runEvaluationBatch_length (env : Env) (db : DB) (sids : List String) :
    (runEvaluationBatch env db sids).2.length = sids.length := by
  induction sids generalizing db with
  | nil => rfl
  | cons sid rest ih => simp [runEvaluationBatch, ih]

end RatesApp

namespace RatesApp

/-! ## Claim theorems -/

/-- C1: for every profile and benchmark rate, the evaluator's rate trigger
fires exactly when the profile's benchmark-rate threshold is set and the
benchmark rate is at most the threshold (non-strict); when the threshold is
unset the trigger is false; in particular a rate equal to the threshold
triggers and a rate of threshold + 0.001 does not. Both the full evaluator
of rates.ts and the simplified one of refinance-calc.ts are covered. -/
theorem benchmark_rate_trigger_spec (p : CalcProfile)
    (sp : SimpleCalc.SimpleProfile) (r : ℚ) :
    ((evaluateRefinanceTriggers p r).benchmarkRateTriggered = true ↔
      ∃ t, p.benchmarkRateThreshold = some t ∧ r ≤ t)
    ∧ (p.benchmarkRateThreshold = none →
      (evaluateRefinanceTriggers p r).benchmarkRateTriggered = false)
    ∧ (∀ t, p.benchmarkRateThreshold = some t →
      (evaluateRefinanceTriggers p t).benchmarkRateTriggered = true
      ∧ (evaluateRefinanceTriggers p (t + 1/1000)).benchmarkRateTriggered
          = false)
    ∧ ((SimpleCalc.evaluateRefinanceTriggers sp r).triggered = true ↔
      ∃ t, sp.benchmarkRateThreshold = some t ∧ r ≤ t) := by
  refine ⟨?_, ?_, ?_, ?_⟩
  · cases h : p.benchmarkRateThreshold with
    | none => simp [evaluateRefinanceTriggers, h]
    | some t => simp [evaluateRefinanceTriggers, h]
  · intro h
    simp [evaluateRefinanceTriggers, h]
  · intro t h
    constructor
    · simp [evaluateRefinanceTriggers, h]
    · simp [evaluateRefinanceTriggers, h]
  · cases h : sp.benchmarkRateThreshold with
    | none => simp [SimpleCalc.evaluateRefinanceTriggers, h]
    | some t => simp [SimpleCalc.evaluateRefinanceTriggers, h]

/-- C1 witness: at threshold 5.5, a benchmark rate of 5.5 triggers and
5.501 does not. -/
theorem benchmark_rate_trigger_spec_witness :
    (evaluateRefinanceTriggers calcProfile1 (11/2)).benchmarkRateTriggered
      = true
    ∧ (evaluateRefinanceTriggers calcProfile1
        (11/2 + 1/1000)).benchmarkRateTriggered = false :=
  (benchmark_rate_trigger_spec calcProfile1 simpleProfile1 (11/2)).2.2.1
    (11/2) rfl

/-- C2: for every closing-costs value, `calculateBreakEvenMonths` is `none`
when monthly savings are nonpositive (the division is never performed on a
zero or negative divisor) and `⌈closing_costs / monthly_savings⌉` when they
are positive; and whenever the evaluator's computed monthly savings are
nonpositive, its break-even months are `none` and its break-even trigger is
false regardless of the threshold in the profile. -/
theorem break_even_guard_spec (cc ms : ℚ) (p : CalcProfile) (r : ℚ) :
    (ms ≤ 0 → calculateBreakEvenMonths cc ms = none)
    ∧ (0 < ms → calculateBreakEvenMonths cc ms = some ⌈cc / ms⌉)
    ∧ ((evaluateRefinanceTriggers p r).metrics.monthlySavings ≤ 0 →
        (evaluateRefinanceTriggers p r).metrics.breakEvenMonths = none
        ∧ (evaluateRefinanceTriggers p r).breakEvenTriggered = false) := by
  refine ⟨?_, ?_, ?_⟩
  · intro h
    simp [calculateBreakEvenMonths, h]
  · intro h
    simp [calculateBreakEvenMonths, not_le.mpr h, h.not_le]
  · intro h
    have hbe : (evaluateRefinanceTriggers p r).metrics.breakEvenMonths
        = none := by
      have hdef : (evaluateRefinanceTriggers p r).metrics.breakEvenMonths =
          calculateBreakEvenMonths
            (evaluateRefinanceTriggers p r).metrics.closingCosts
            (evaluateRefinanceTriggers p r).metrics.monthlySavings := rfl
      rw [hdef]
      simp [calculateBreakEvenMonths, h]
    refine ⟨hbe, ?_⟩
    have htrig : (evaluateRefinanceTriggers p r).breakEvenTriggered =
        match p.breakEvenMonthsThreshold,
          (evaluateRefinanceTriggers p r).metrics.breakEvenMonths with
        | some t, some b => decide (b ≤ t)
        | _, _ => false := rfl
    rw [htrig, hbe]
    cases p.breakEvenMonthsThreshold <;> rfl

/-- C2 witness: zero monthly savings give no break-even months, and on a
profile whose computed savings are negative (rate 5.5 against a 5% loan),
the break-even months are `none` and the break-even trigger is off. -/
theorem break_even_guard_spec_witness :
    calculateBreakEvenMonths 50 0 = none
    ∧ ((evaluateRefinanceTriggers calcProfile1 (11/2)).metrics.breakEvenMonths
        = none
      ∧ (evaluateRefinanceTriggers calcProfile1 (11/2)).breakEvenTriggered
        = false) :=
  ⟨(break_even_guard_spec 50 0 calcProfile1 (11/2)).1 le_rfl,
   (break_even_guard_spec 50 0 calcProfile1 (11/2)).2.2 (by
      norm_num [evaluateRefinanceTriggers, calculateRefinanceMetrics,
        calculateMonthlyPayment, calculateClosingCosts,
        closingCostsFromPercent, calculateBreakEvenMonths, calcProfile1])⟩

/-- C3: the evaluator's decision is the inclusive OR of the two triggers;
the reason is `none` exactly when nothing triggered; and the reason string
is assembled from one clause per satisfied condition — the rate clause
quoting both rates to three decimals, the break-even clause quoting the
months — joined with ". Additionally, " and omitting unsatisfied
conditions. -/
theorem combined_decision_reason_spec (p : CalcProfile) (r : ℚ) :
    ((evaluateRefinanceTriggers p r).triggered =
      ((evaluateRefinanceTriggers p r).benchmarkRateTriggered ||
        (evaluateRefinanceTriggers p r).breakEvenTriggered))
    ∧ ((evaluateRefinanceTriggers p r).triggeredReason = none ↔
        (evaluateRefinanceTriggers p r).triggered = false)
    ∧ ((evaluateRefinanceTriggers p r).benchmarkRateTriggered = true →
        (evaluateRefinanceTriggers p r).breakEvenTriggered = false →
        (evaluateRefinanceTriggers p r).triggeredReason =
          some (rateClause r (p.benchmarkRateThreshold.getD 0) ++ "."))
    ∧ ((evaluateRefinanceTriggers p r).benchmarkRateTriggered = false →
        (evaluateRefinanceTriggers p r).breakEvenTriggered = true →
        (evaluateRefinanceTriggers p r).triggeredReason =
          some (breakEvenClause
            ((evaluateRefinanceTriggers p r).metrics.breakEvenMonths.getD 0)
            (p.breakEvenMonthsThreshold.getD 0) ++ "."))
    ∧ ((evaluateRefinanceTriggers p r).benchmarkRateTriggered = true →
        (evaluateRefinanceTriggers p r).breakEvenTriggered = true →
        (evaluateRefinanceTriggers p r).triggeredReason =
          some (rateClause r (p.benchmarkRateThreshold.getD 0) ++
            ". Additionally, " ++
            breakEvenClause
              ((evaluateRefinanceTriggers p r).metrics.breakEvenMonths.getD 0)
              (p.breakEvenMonthsThreshold.getD 0) ++ ".")) := by
  have hReason : (evaluateRefinanceTriggers p r).triggeredReason =
      (if 0 < ((if (evaluateRefinanceTriggers p r).benchmarkRateTriggered then
          [rateClause r (p.benchmarkRateThreshold.getD 0)] else []) ++
        (if (evaluateRefinanceTriggers p r).breakEvenTriggered then
          [breakEvenClause
            ((evaluateRefinanceTriggers p r).metrics.breakEvenMonths.getD 0)
            (p.breakEvenMonthsThreshold.getD 0)] else [])).length then
        some (String.intercalate ". Additionally, "
          ((if (evaluateRefinanceTriggers p r).benchmarkRateTriggered then
            [rateClause r (p.benchmarkRateThreshold.getD 0)] else []) ++
          (if (evaluateRefinanceTriggers p r).breakEvenTriggered then
            [breakEvenClause
              ((evaluateRefinanceTriggers p r).metrics.breakEvenMonths.getD 0)
              (p.breakEvenMonthsThreshold.getD 0)] else [])) ++ ".")
      else none) := rfl
  have hTrig : (evaluateRefinanceTriggers p r).triggered =
      ((evaluateRefinanceTriggers p r).benchmarkRateTriggered ||
        (evaluateRefinanceTriggers p r).breakEvenTriggered) := rfl
  refine ⟨hTrig, ?_, ?_, ?_, ?_⟩
  · rw [hReason, hTrig]
    cases hb1 : (evaluateRefinanceTriggers p r).benchmarkRateTriggered <;>
      cases hb2 : (evaluateRefinanceTriggers p r).breakEvenTriggered <;>
      simp
  · intro hb1 hb2
    rw [hReason, hb1, hb2]
    simp [String.intercalate, String.intercalate.go, String.append_assoc]
  · intro hb1 hb2
    rw [hReason, hb1, hb2]
    simp [String.intercalate, String.intercalate.go, String.append_assoc]
  · intro hb1 hb2
    rw [hReason, hb1, hb2]
    simp [String.intercalate, String.intercalate.go, String.append_assoc]

/-- C3 witness: on a profile where rate 5 satisfies both conditions, the
reason is the rate clause followed by ". Additionally, " and the break-even
clause. -/
theorem combined_decision_reason_spec_witness :
    (evaluateRefinanceTriggers calcProfile3 5).triggeredReason =
      some (rateClause 5 (calcProfile3.benchmarkRateThreshold.getD 0) ++
        ". Additionally, " ++
        breakEvenClause
          ((evaluateRefinanceTriggers calcProfile3
            5).metrics.breakEvenMonths.getD 0)
          (calcProfile3.breakEvenMonthsThreshold.getD 0) ++ ".") :=
  (combined_decision_reason_spec calcProfile3 5).2.2.2.2
    (by norm_num [evaluateRefinanceTriggers, calculateRefinanceMetrics,
      calculateMonthlyPayment, calculateClosingCosts, closingCostsFromPercent,
      calculateBreakEvenMonths, calcProfile3, show Int.toNat 2 = 2 from rfl])
    (by
      norm_num [evaluateRefinanceTriggers, calculateRefinanceMetrics,
        calculateMonthlyPayment, calculateClosingCosts, closingCostsFromPercent,
        calculateBreakEvenMonths, calcProfile3, show Int.toNat 2 = 2 from rfl]
      rw [Int.ceil_le]
      norm_num)

end RatesApp

namespace RatesApp

/-- C4: invoking `runEvaluation` on a session whose status is not `active`
returns the whole output unchanged-and-skipped: the database is exactly the
input database (no rate snapshot, no evaluation run, no session change, no
alert event), no fetch and no provider call happen, and the result is
`triggered = false` with the `skipped` metrics naming the status. -/
theorem non_active_session_skip_spec (env : Env) (db : DB) (sid : String)
    (s : MonitorSession)
    (h1 : getSessionById db sid = some s)
    (h2 : s.status ≠ SessionStatus.active) :
    runEvaluation env db sid =
      ⟨db, Except.ok ⟨false, RunMetrics.skipped s.status⟩, ⟨false, false⟩⟩ := by
  unfold runEvaluation
  rw [h1]
  simp [h2]

/-- C4 witness: a paused session is skipped with the database untouched. -/
theorem non_active_session_skip_spec_witness :
    runEvaluation envNoFetch dbC4 "s1" =
      ⟨dbC4, Except.ok ⟨false, RunMetrics.skipped SessionStatus.paused⟩,
        ⟨false, false⟩⟩ :=
  non_active_session_skip_spec envNoFetch dbC4 "s1" pausedSession0 rfl
    (by decide)

/-- C5: calling the notifier twice for the same session with the provider
succeeding sends exactly once: the first call reports `sent` and invokes the
provider, the second finds the deterministic `alert-<sessionId>` dedupe row,
returns `sent = false` without invoking the provider (whatever the provider
would have answered), and exactly one `alert_events` row for the key
exists afterwards. -/
theorem notify_dedupe_spec (providerSecond : Option String)
    (emailId1 : String) (now1 now2 : ℕ) (db : DB) (p1 p2 : AlertParams)
    (hsame : p2.sessionId = p1.sessionId)
    (h0 : ∀ e ∈ db.alertEvents, e.dedupeKey ≠ "alert-" ++ p1.sessionId) :
    ((sendRefinanceAlert (some emailId1) now1 db p1).2.1.sent = true)
    ∧ ((sendRefinanceAlert (some emailId1) now1 db p1).2.2 = true)
    ∧ ((sendRefinanceAlert providerSecond now2
        (sendRefinanceAlert (some emailId1) now1 db p1).1 p2).2.1.sent = false)
    ∧ ((sendRefinanceAlert providerSecond now2
        (sendRefinanceAlert (some emailId1) now1 db p1).1 p2).2.2 = false)
    ∧ ((sendRefinanceAlert providerSecond now2
        (sendRefinanceAlert (some emailId1) now1 db p1).1 p2).1.alertEvents =
        db.alertEvents ++
        [⟨p1.sessionId, "alert-" ++ p1.sessionId, alertSubject,
          p1.data.triggeredReason.take 200, emailId1, now1⟩])
    ∧ (((sendRefinanceAlert providerSecond now2
        (sendRefinanceAlert (some emailId1) now1 db p1).1
          p2).1.alertEvents.filter
        (fun e => decide (e.dedupeKey = "alert-" ++ p1.sessionId))).length
        = 1) := by
  have hany : (db.alertEvents.any fun e =>
      decide (e.dedupeKey = "alert-" ++ p1.sessionId)) = false :=
    any_dedupe_false db.alertEvents _ h0
  have hfirst : sendRefinanceAlert (some emailId1) now1 db p1 =
      ({ db with alertEvents := db.alertEvents ++
          [⟨p1.sessionId, "alert-" ++ p1.sessionId, alertSubject,
            p1.data.triggeredReason.take 200, emailId1, now1⟩] },
        ⟨true, some emailId1⟩, true) := by
    unfold sendRefinanceAlert
    simp [hany]
  have hsecond : sendRefinanceAlert providerSecond now2
      (sendRefinanceAlert (some emailId1) now1 db p1).1 p2 =
      ((sendRefinanceAlert (some emailId1) now1 db p1).1,
        ⟨false, none⟩, false) := by
    rw [hfirst]
    unfold sendRefinanceAlert
    rw [hsame]
    simp
  refine ⟨by rw [hfirst], by rw [hfirst], by rw [hsecond], by rw [hsecond],
    ?_, ?_⟩
  · rw [hsecond, hfirst]
  · rw [hsecond, hfirst]
    have hfil : db.alertEvents.filter
        (fun e => decide (e.dedupeKey = "alert-" ++ p1.sessionId)) = [] := by
      rw [List.filter_eq_nil_iff]
      intro e he
      simp [h0 e he]
    simp [List.filter_append, hfil]

/-- C5 witness: on an empty alert table, the first send for session `s1`
succeeds and the second returns `sent = false` without a provider call. -/
theorem notify_dedupe_spec_witness :
    ((sendRefinanceAlert (some "email-1") 0 dbEmpty alertParams0).2.1.sent
      = true)
    ∧ ((sendRefinanceAlert none 1
        (sendRefinanceAlert (some "email-1") 0 dbEmpty alertParams0).1
        alertParams0).2.2 = false) :=
  ⟨(notify_dedupe_spec none "email-1" 0 1 dbEmpty alertParams0 alertParams0
      rfl (by simp [dbEmpty])).1,
   (notify_dedupe_spec none "email-1" 0 1 dbEmpty alertParams0 alertParams0
      rfl (by simp [dbEmpty])).2.2.2.1⟩

/-- C6: on an active session with profile and user present, a failed rate
fetch makes the cycle record an `error` evaluation run, move the session to
`error` with `last_error` set, return `triggered = false` as a normal (not
thrown) result, attempt no notification and write no alert event; and the
batch runner yields one entry per session regardless. -/
theorem fetch_failure_error_spec (env : Env) (db : DB) (sid : String)
    (s : MonitorSession) (profile : OnboardingProfile) (user : User)
    (h1 : getSessionById db sid = some s)
    (h2 : s.status = SessionStatus.active)
    (h3 : db.profiles.find? (fun p => decide (p.userId = s.userId))
      = some profile)
    (h4 : db.users.find? (fun u => decide (u.id = s.userId)) = some user)
    (h5 : env.fetchResult = none) :
    (runEvaluation env db sid).result =
        Except.ok ⟨false, RunMetrics.errored "Failed to fetch rate data"⟩
    ∧ (runEvaluation env db sid).eff = ⟨true, false⟩
    ∧ (runEvaluation env db sid).db.evaluationRuns = db.evaluationRuns ++
        [⟨sid, Outcome.error,
          some (ComputedMetrics.errorOf "Failed to fetch rate data"), none,
          none⟩]
    ∧ (runEvaluation env db sid).db.alertEvents = db.alertEvents
    ∧ (∃ s', getSessionById (runEvaluation env db sid).db sid = some s'
        ∧ s'.status = SessionStatus.error
        ∧ s'.lastError = some "Failed to fetch rate data")
    ∧ (∀ sids : List String,
        (runEvaluationBatch env db sids).2.length = sids.length) := by
  have hfetch : fetchAndStoreLatestRate env db = (db, none) := by
    unfold fetchAndStoreLatestRate
    rw [h5]
  have hrun : runEvaluation env db sid =
      ⟨updateSessionStatus
          (recordEvaluationRun db ⟨sid, Outcome.error,
            some (ComputedMetrics.errorOf "Failed to fetch rate data"), none,
            none⟩)
          sid SessionStatus.error
          ⟨none, some "Failed to fetch rate data", none, none⟩,
        Except.ok ⟨false, RunMetrics.errored "Failed to fetch rate data"⟩,
        ⟨true, false⟩⟩ := by
    unfold runEvaluation
    rw [h1]
    simp [h2, h3, h4, hfetch]
  refine ⟨?_, ?_, ?_, ?_, ?_, fun sids => runEvaluationBatch_length env db sids⟩
  · rw [hrun]
  · rw [hrun]
  · rw [hrun]
    simp [updateSessionStatus, recordEvaluationRun]
  · rw [hrun]
    simp [updateSessionStatus, recordEvaluationRun]
  · rw [hrun]
    refine ⟨applyPatch s SessionStatus.error
      ⟨none, some "Failed to fetch rate data", none, none⟩, ?_, rfl, rfl⟩
    rw [getSessionById_updateSessionStatus]
    have hrec : getSessionById (recordEvaluationRun db
        ⟨sid, Outcome.error,
          some (ComputedMetrics.errorOf "Failed to fetch rate data"), none,
          none⟩) sid = getSessionById db sid := rfl
    rw [hrec, h1]
    rfl

/-- C6 witness: with the fetch yielding nothing, the cycle on the concrete
active session returns a non-thrown error outcome, fetched once and never
called the provider. -/
theorem fetch_failure_error_spec_witness :
    (runEvaluation envNoFetch dbC6 "s1").result =
        Except.ok ⟨false, RunMetrics.errored "Failed to fetch rate data"⟩
    ∧ (runEvaluation envNoFetch dbC6 "s1").eff = ⟨true, false⟩ :=
  ⟨(fetch_failure_error_spec envNoFetch dbC6 "s1" activeSession0 profile0
      user0 rfl rfl rfl rfl rfl).1,
   (fetch_failure_error_spec envNoFetch dbC6 "s1" activeSession0 profile0
      user0 rfl rfl rfl rfl rfl).2.1⟩

end RatesApp

namespace RatesApp

/-- C7: when an active session's evaluation triggers with email alerts
enabled but the provider call fails, the cycle still records an evaluation
run with outcome `triggered` whose `notifiedAt` is unset, transitions the
session to `completed` with `completedAt` stamped, and writes no alert-event
dedupe row (the row is persisted only after confirmed provider success), the
provider having actually been invoked once. -/
theorem provider_failure_triggered_spec (env : Env) (db : DB) (sid : String)
    (s : MonitorSession) (profile : OnboardingProfile) (user : User)
    (d : ℕ) (v : ℚ)
    (h1 : getSessionById db sid = some s)
    (h2 : s.status = SessionStatus.active)
    (h3 : db.profiles.find? (fun p => decide (p.userId = s.userId))
      = some profile)
    (h4 : db.users.find? (fun u => decide (u.id = s.userId)) = some user)
    (h5 : env.fetchResult = some (d, v))
    (h6 : profile.emailAlertsEnabled = true)
    (h7 : (evaluateRefinanceTriggers (profileToCalcInput profile) v).triggered
      = true)
    (h8 : env.providerResult = none)
    (h9 : ∀ e ∈ db.alertEvents, e.dedupeKey ≠ "alert-" ++ sid) :
    (runEvaluation env db sid).result = Except.ok
        ⟨true, RunMetrics.computed
          (evaluateRefinanceTriggers (profileToCalcInput profile) v).metrics⟩
    ∧ (runEvaluation env db sid).eff = ⟨true, true⟩
    ∧ (runEvaluation env db sid).db.evaluationRuns = db.evaluationRuns ++
        [⟨sid, Outcome.triggered,
          some (ComputedMetrics.metricsOf
            (evaluateRefinanceTriggers (profileToCalcInput profile) v).metrics),
          (evaluateRefinanceTriggers
            (profileToCalcInput profile) v).triggeredReason,
          none⟩]
    ∧ (runEvaluation env db sid).db.alertEvents = db.alertEvents
    ∧ (∃ s', getSessionById (runEvaluation env db sid).db sid = some s'
        ∧ s'.status = SessionStatus.completed
        ∧ s'.completedAt = some env.now) := by
  have hfetch : fetchAndStoreLatestRate env db =
      ((storeRateSnapshot env.now db RATE_SERIES d v).1,
        some (d, v, (storeRateSnapshot env.now db RATE_SERIES d v).2)) := by
    unfold fetchAndStoreLatestRate
    rw [h5]
  have hsend : ∀ params : AlertParams, params.sessionId = sid →
      sendRefinanceAlert env.providerResult env.now
        (touchSessionCheckTimes (storeRateSnapshot env.now db RATE_SERIES d v).1
          sid env.now) params =
      (touchSessionCheckTimes (storeRateSnapshot env.now db RATE_SERIES d v).1
          sid env.now, ⟨false, none⟩, true) := by
    intro params hp
    unfold sendRefinanceAlert
    rw [hp, h8]
    have hae : (touchSessionCheckTimes
        (storeRateSnapshot env.now db RATE_SERIES d v).1 sid
        env.now).alertEvents = db.alertEvents := by
      rw [touchSessionCheckTimes_alertEvents, storeRateSnapshot_fst_alertEvents]
    have hany : (db.alertEvents.any fun e =>
        decide (e.dedupeKey = "alert-" ++ sid)) = false :=
      any_dedupe_false db.alertEvents _ h9
    simp [hae, hany]
  have hrun : runEvaluation env db sid =
      ⟨updateSessionStatus
          (recordEvaluationRun
            (touchSessionCheckTimes
              (storeRateSnapshot env.now db RATE_SERIES d v).1 sid env.now)
            ⟨sid, Outcome.triggered,
              some (ComputedMetrics.metricsOf
                (evaluateRefinanceTriggers
                  (profileToCalcInput profile) v).metrics),
              (evaluateRefinanceTriggers
                (profileToCalcInput profile) v).triggeredReason,
              none⟩)
          sid SessionStatus.completed
          ⟨some env.now, none,
            some ⟨v,
              (evaluateRefinanceTriggers (profileToCalcInput profile) v).metrics,
              (evaluateRefinanceTriggers
                (profileToCalcInput profile) v).triggeredReason⟩,
            none⟩,
        Except.ok ⟨true, RunMetrics.computed
          (evaluateRefinanceTriggers (profileToCalcInput profile) v).metrics⟩,
        ⟨true, true⟩⟩ := by
    unfold runEvaluation
    rw [h1]
    simp [h2, h3, h4, hfetch, h6, h7, hsend]
  refine ⟨?_, ?_, ?_, ?_, ?_⟩
  · rw [hrun]
  · rw [hrun]
  · rw [hrun]
    rw [updateSessionStatus_evaluationRuns, recordEvaluationRun_evaluationRuns,
      touchSessionCheckTimes_evaluationRuns, storeRateSnapshot_fst_evaluationRuns]
  · rw [hrun]
    rw [updateSessionStatus_alertEvents, recordEvaluationRun_alertEvents,
      touchSessionCheckTimes_alertEvents, storeRateSnapshot_fst_alertEvents]
  · rw [hrun]
    rw [getSessionById_updateSessionStatus, getSessionById_recordEvaluationRun,
      getSessionById_touchSessionCheckTimes]
    have hstore : getSessionById
        (storeRateSnapshot env.now db RATE_SERIES d v).1 sid =
        getSessionById db sid := by
      unfold getSessionById
      rw [storeRateSnapshot_fst_sessions]
    rw [hstore, h1]
    exact ⟨_, rfl, rfl, rfl⟩

/-- C7 witness: on the concrete triggering session with a failing provider,
the cycle fetched once, invoked the provider once, and left the alert table
empty. -/
theorem provider_failure_triggered_spec_witness :
    (runEvaluation envProviderDown dbC6 "s1").eff = ⟨true, true⟩
    ∧ (runEvaluation envProviderDown dbC6 "s1").db.alertEvents = [] :=
  ⟨(provider_failure_triggered_spec envProviderDown dbC6 "s1" activeSession0
      profile0 user0 0 5 rfl rfl rfl rfl rfl rfl
      (by norm_num [evaluateRefinanceTriggers, calculateRefinanceMetrics,
        calculateMonthlyPayment, calculateClosingCosts, closingCostsFromPercent,
        calculateBreakEvenMonths, profileToCalcInput, profile0])
      rfl (by simp [dbC6])).2.1,
   (provider_failure_triggered_spec envProviderDown dbC6 "s1" activeSession0
      profile0 user0 0 5 rfl rfl rfl rfl rfl rfl
      (by norm_num [evaluateRefinanceTriggers, calculateRefinanceMetrics,
        calculateMonthlyPayment, calculateClosingCosts, closingCostsFromPercent,
        calculateBreakEvenMonths, profileToCalcInput, profile0])
      rfl (by simp [dbC6])).2.2.2.1⟩

/-- C8: the row-level half of the idempotent-store claim holds — storing the
same `(series, date)` twice, with different values, leaves exactly one row
holding the first value and the second call does not error — but the second
call returns `true` (a fresh insert), not the `false` ("already present")
that the claim, and the function's own doc comment, promise. -/
theorem store_duplicate_returns_true_bug (db : DB) (series : String)
    (d now1 now2 : ℕ) (v1 v2 : ℚ)
    (h0 : ∀ r ∈ db.rateSnapshots, ¬(r.series = series ∧ r.snapshotDate = d)) :
    ((storeRateSnapshot now2 (storeRateSnapshot now1 db series d v1).1 series d
        v2).1.rateSnapshots = db.rateSnapshots ++ [⟨series, d, v1, now1⟩])
    ∧ (storeRateSnapshot now1 db series d v1).2 = true
    ∧ (storeRateSnapshot now2 (storeRateSnapshot now1 db series d v1).1 series
        d v2).2 = true := by
  have hany : (db.rateSnapshots.any fun r =>
      decide (r.series = series ∧ r.snapshotDate = d)) = false := by
    simp only [List.any_eq_false, decide_eq_true_eq]
    exact h0
  have hfirst : storeRateSnapshot now1 db series d v1 =
      ({ db with rateSnapshots := db.rateSnapshots ++
          [⟨series, d, v1, now1⟩] }, true) := by
    unfold storeRateSnapshot
    rw [hany]
    simp
  have hsecond : storeRateSnapshot now2
      (storeRateSnapshot now1 db series d v1).1 series d v2 =
      ((storeRateSnapshot now1 db series d v1).1, true) := by
    rw [hfirst]
    unfold storeRateSnapshot
    simp
  refine ⟨?_, by rw [hfirst], by rw [hsecond]⟩
  rw [hsecond, hfirst]

/-- C8 witness: storing `(OBMMIC30YF, day 100)` with value 5 and then value
6 leaves the single original row and the second call still answers `true`. -/
theorem store_duplicate_returns_true_bug_witness :
    ((storeRateSnapshot 1 (storeRateSnapshot 0 dbEmpty "OBMMIC30YF" 100 5).1
        "OBMMIC30YF" 100 6).1.rateSnapshots = [⟨"OBMMIC30YF", 100, 5, 0⟩])
    ∧ (storeRateSnapshot 1 (storeRateSnapshot 0 dbEmpty "OBMMIC30YF" 100 5).1
        "OBMMIC30YF" 100 6).2 = true :=
  ⟨(store_duplicate_returns_true_bug dbEmpty "OBMMIC30YF" 100 0 1 5 6
      (by simp [dbEmpty])).1,
   (store_duplicate_returns_true_bug dbEmpty "OBMMIC30YF" 100 0 1 5 6
      (by simp [dbEmpty])).2.2⟩

end RatesApp

namespace RatesApp

/-- C9 counterexample: submitting onboarding twice for the same user (a
sequence of the claim's session-creating operations) leaves that user with
two `active` monitor sessions, so "at most one of the user's sessions is
active at any time" fails on the code — `submitOnboarding` creates the new
active session without stopping the previous one. -/
theorem single_active_session_counterexample :
    ¬ (activeSessionCount
      (submitOnboarding
        (submitOnboarding dbEmpty "u" demoProfile "s1").1
        "u" demoProfile "s2").1 "u" ≤ 1) := by
  decide

/-- C9 (amended): `startOver` does stop every prior active session before
creating the replacement, so right after `startOver` the user has exactly
one active session; `submitOnboarding`, however, creates a fresh active
session without stopping prior ones, so each onboarding submission increases
the user's active-session count by one and the at-most-one-active invariant
holds only for the `start_over` path. -/
theorem single_active_session_amended (db : DB) (u newId : String)
    (pd : OnboardingProfile) (db2 : DB) (u2 newId2 : String) :
    activeSessionCount (startOver db2 u2 newId2).1 u2 = 1
    ∧ activeSessionCount (submitOnboarding db u pd newId).1 u =
        activeSessionCount db u + 1 := by
  constructor
  · unfold startOver createMonitorSession triggerWorkflowRun activeSessionCount
    rw [countP_map_invariant _ _ (fun a => by
      by_cases h : decide (a.id = newId2) = true <;> simp [h])]
    rw [List.countP_append]
    have hzero : (db2.sessions.map (fun s =>
        if decide (s.userId = u2 ∧ s.status = SessionStatus.active) then
          { s with status := SessionStatus.stopped }
        else s)).countP
        (fun s => decide (s.userId = u2 ∧ s.status = SessionStatus.active))
        = 0 := by
      rw [List.countP_eq_zero]
      intro a ha
      rw [List.mem_map] at ha
      obtain ⟨b, _, hb⟩ := ha
      by_cases h : decide (b.userId = u2 ∧ b.status = SessionStatus.active)
          = true
      · rw [if_pos h] at hb
        subst hb
        simp
      · rw [if_neg h] at hb
        subst hb
        exact h
    rw [hzero]
    simp
  · have hsess : (submitOnboarding db u pd newId).1.sessions =
        (db.sessions ++ [freshSession newId u]).map
          (fun s : MonitorSession => if decide (s.id = newId) then
            { s with activeWorkflowId := some ("workflow-" ++ newId) }
          else s) := by
      by_cases hc : (db.profiles.any fun p => decide (p.userId = u)) = true
      · unfold submitOnboarding createMonitorSession triggerWorkflowRun
        rw [if_pos hc]
        rfl
      · unfold submitOnboarding createMonitorSession triggerWorkflowRun
        rw [if_neg hc]
        rfl
    unfold activeSessionCount
    rw [hsess]
    rw [countP_map_invariant _ _ (fun a => by
      by_cases h : decide (a.id = newId) = true <;> simp [h])]
    rw [List.countP_append]
    simp [freshSession]

/-- C10 counterexample: with the fixed-dollar closing-cost field set to `0`
(set, but not positive) and no percent, `calculateClosingCosts` returns the
2%-of-balance default (2000 on a 100000 balance), not the set fixed amount
0 — the code requires the field to be strictly positive, not merely set. -/
theorem closing_costs_set_counterexample :
    calculateClosingCosts 100000 (some 0) none = 2000
    ∧ calculateClosingCosts 100000 (some 0) none ≠ 0 := by
  norm_num [calculateClosingCosts, closingCostsFromPercent]

/-- C10 (amended): closing costs equal the fixed dollar amount whenever that
field is set AND strictly positive; otherwise the percent of the balance
whenever the percent field is set AND strictly positive; otherwise the
default 2% of the loan balance. -/
theorem closing_costs_amended (b : ℚ) (cd cp : Option ℚ) :
    (∀ d, cd = some d → 0 < d → calculateClosingCosts b cd cp = d)
    ∧ (∀ q, (cd = none ∨ ∃ d, cd = some d ∧ d ≤ 0) → cp = some q → 0 < q →
        calculateClosingCosts b cd cp = b * (q / 100))
    ∧ ((cd = none ∨ ∃ d, cd = some d ∧ d ≤ 0) →
       (cp = none ∨ ∃ q, cp = some q ∧ q ≤ 0) →
        calculateClosingCosts b cd cp = b * (2 / 100)) := by
  refine ⟨?_, ?_, ?_⟩
  · intro d hd hpos
    subst hd
    simp [calculateClosingCosts, hpos]
  · intro q hcd hcp hq
    subst hcp
    rcases hcd with h | ⟨d, hd, hle⟩
    · subst h
      simp [calculateClosingCosts, closingCostsFromPercent, hq]
    · subst hd
      simp [calculateClosingCosts, closingCostsFromPercent, not_lt.mpr hle, hq]
  · intro hcd hcp
    have hfp : closingCostsFromPercent b cp = b * (2 / 100) := by
      rcases hcp with h | ⟨q, hq, hle⟩
      · subst h
        rfl
      · subst hq
        simp [closingCostsFromPercent, not_lt.mpr hle]
    rcases hcd with h | ⟨d, hd, hle⟩
    · subst h
      simp [calculateClosingCosts, hfp]
    · subst hd
      simp [calculateClosingCosts, not_lt.mpr hle, hfp]

/-- C10 (amended) witness: a positive fixed amount wins, a positive percent
is used when the fixed amount is unset, and the 2% default applies when
neither is set. -/
theorem closing_costs_amended_witness :
    calculateClosingCosts 100000 (some 500) (some 1) = 500
    ∧ calculateClosingCosts 100000 none (some 1) = 100000 * (1 / 100)
    ∧ calculateClosingCosts 100000 none none = 100000 * (2 / 100) :=
  ⟨(closing_costs_amended 100000 (some 500) (some 1)).1 500 rfl
      (by norm_num),
   (closing_costs_amended 100000 none (some 1)).2.1 1 (Or.inl rfl) rfl
      (by norm_num),
   (closing_costs_amended 100000 none none).2.2 (Or.inl rfl) (Or.inl rfl)⟩

end RatesApp
